import Mathlib

/-!
Verification of the browser-automation verification scripts of
neo-tokyo-rival-academies against their natural-language specification.

The repository holds three Python scripts driving a headless browser via
playwright:

* `src/verify_mall.py` — `test_game_load(page)` plus a `__main__` block;
* `src/scripts/verify_rpg_gameplay.py` — `verify_rpg_gameplay(page)` plus a
  `__main__` block, and a module-level `os.makedirs` on import;
* `src/verify_game.py` — syntactically invalid Python (the `try:` opened at
  line 11 is followed at line 32 by a plain statement at the same indentation
  with no `except`/`finally` clause), so this script can never be imported or
  run; it is therefore not embedded as an executable artifact here.

The two runnable scripts are embedded shallowly.  A run is modelled as a
function from an *environment* — the vector of booleans saying which external
operations (navigation, selector waits, element clicks, screenshot writes)
succeed — to the pair of (the ordered trace of observable events the script
performs, the outcome: returned normally or raised an exception).  Playwright
calls are modelled at the granularity the scripts use them:

* `page.goto(url)` either succeeds or raises;
* `page.wait_for_selector(sel, timeout)` either finds the selector within its
  timeout or raises a timeout error after at most `timeout` milliseconds;
  `verify_rpg_gameplay` passes no timeout, so the playwright library default
  of 30000 ms applies there;
* `locator.click()` auto-waits and either clicks or raises;
* `locator.is_visible()` returns a boolean immediately;
* `page.mouse.click(x, y)` and `time.sleep(s)` always succeed;
* `page.screenshot(path=p)` either writes the file at `p` or raises.

Browser/page startup (`launch`, `new_page`) is modelled as succeeding: the
claims under check all concern failures from navigation onward, which is also
the earliest point either script's own error handling can distinguish.
`print` calls to the log stream are modelled as `log` events; the two
f-string error prints are modelled as a dedicated `logError` event since
their text depends on the exception.  The `page.on("console", ...)` and
`page.on("pageerror", ...)` handler registrations of `verify_rpg_gameplay`
are modelled as `registerHandler` events.
-/

/-- Observable events a script run performs, in order. -/
inductive Ev where
  /-- `page.goto(url)` succeeded. -/
  | nav (url : String)
  /-- `page.goto(url)` raised (unreachable or navigation timeout). -/
  | navFail (url : String)
  /-- `page.wait_for_selector(sel, timeout)` found the selector. -/
  | waitSelector (sel : String) (timeoutMs : Nat)
  /-- `page.wait_for_selector(sel, timeout)` raised after at most
  `timeoutMs` milliseconds. -/
  | waitTimeout (sel : String) (timeoutMs : Nat)
  /-- `time.sleep` for the given milliseconds. -/
  | sleep (ms : Nat)
  /-- `page.mouse.click(x, y)`. -/
  | click (x y : Nat)
  /-- `page.get_by_text(txt)` resolved and `.click()` succeeded. -/
  | clickText (txt : String)
  /-- `page.get_by_text(txt).click()` raised (target missing / not
  actionable within its auto-wait). -/
  | clickTextFail (txt : String)
  /-- `page.screenshot(path=p)` wrote the image file at `p`. -/
  | screenshot (p : String)
  /-- `page.screenshot(path=p)` raised; no file written. -/
  | screenshotFail (p : String)
  /-- a `print(...)` with a fixed message. -/
  | log (msg : String)
  /-- a `print(f"...{e}")` whose text depends on the caught exception. -/
  | logError
  /-- `page.on(name, ...)` handler registration. -/
  | registerHandler (name : String)
  /-- `os.makedirs(p, exist_ok=True)`. -/
  | mkdir (p : String)
  /-- `p.chromium.launch(headless=True)`. -/
  | launch
  /-- `browser.new_page(...)`. -/
  | newPage
  /-- `page.set_viewport_size(...)`. -/
  | setViewport (w h : Nat)
  /-- `browser.close()`. -/
  | browserClose
deriving DecidableEq, Repr

/-- How a modelled Python call frame ends: a normal return, or an exception
propagating to the caller. -/
inductive Outcome where
  | ok
  | raised
deriving DecidableEq, Repr

/-- The file paths written by `page.screenshot` events of a trace, in
order.  These are the artifact files a run produces. -/
def artifacts (t : List Ev) : List String :=
  t.filterMap fun ev =>
    match ev with
    | Ev.screenshot p => some p
    | _ => none

/-- Number of `browserClose` events in a trace. -/
def closeCount (t : List Ev) : Nat :=
  t.countP fun ev =>
    match ev with
    | Ev.browserClose => true
    | _ => false

/-- Number of `mkdir` events in a trace. -/
def mkdirCount (t : List Ev) : Nat :=
  t.countP fun ev =>
    match ev with
    | Ev.mkdir _ => true
    | _ => false

/-- Number of screenshot attempts (successful or failed) in a trace. -/
def screenshotAttemptCount (t : List Ev) : Nat :=
  t.countP fun ev =>
    match ev with
    | Ev.screenshot _ => true
    | Ev.screenshotFail _ => true
    | _ => false

/-! ## Constants shared by the scripts -/

/-- Target URL of `verify_rpg_gameplay.py` (with trailing slash). -/
def rpgUrl : String := "http://localhost:4321/neo-tokyo-rival-academies/"

/-- Target URL of `verify_mall.py` (no trailing slash). -/
def mallUrl : String := "http://localhost:4321/neo-tokyo-rival-academies"

/-- Output directory both runnable scripts write artifacts into. -/
def verificationDir : String := "/home/jules/verification"

/-- Artifact path of the `menu` checkpoint of `verify_rpg_gameplay.py`. -/
def menuPath : String := "/home/jules/verification/1_menu.png"

/-- Artifact path of the `dialogue_intro` checkpoint of
`verify_rpg_gameplay.py`. -/
def dialoguePath : String := "/home/jules/verification/2_dialogue_intro.png"

/-- Artifact path of the `gameplay` checkpoint of
`verify_rpg_gameplay.py`. -/
def gameplayHudPath : String := "/home/jules/verification/3_gameplay_hud.png"

/-- Error artifact path used by both scripts' error handlers. -/
def errorPath : String := "/home/jules/verification/error.png"

/-- Artifact path of the gameplay checkpoint of `verify_mall.py`. -/
def mallGameplayPath : String := "/home/jules/verification/mall_background_gameplay.png"

/-- Diagnostic artifact path `verify_mall.py` writes when the start button
is not visible. -/
def menuFailedPath : String := "/home/jules/verification/menu_failed.png"

/-- Playwright's default per-operation timeout, used by
`verify_rpg_gameplay.py`'s `wait_for_selector("canvas")` call, which passes
no explicit timeout. -/
def playwrightDefaultTimeoutMs : Nat := 30000

/-- Explicit canvas-wait timeout of `verify_mall.py`
(`timeout=30000`). -/
def mallCanvasTimeoutMs : Nat := 30000

/-- The checkpoint artifact paths of `verify_rpg_gameplay.py`, in checkpoint
order.  `error.png` is the error artifact, not a checkpoint artifact. -/
def rpgCheckpointPaths : List String := [menuPath, dialoguePath, gameplayHudPath]

/-- The checkpoint artifact paths of `verify_mall.py` (the degraded-menu
diagnostic and the gameplay shot); `error.png` is the error artifact. -/
def mallCheckpointPaths : List String := [menuFailedPath, mallGameplayPath]

/-- Artifacts of a trace restricted to a given list of checkpoint paths. -/
def ckArtifacts (paths : List String) (t : List Ev) : List String :=
  (artifacts t).filter fun p => paths.contains p

/-! ## Embedding of `src/scripts/verify_rpg_gameplay.py` -/

/-- Environment of one `verify_rpg_gameplay.py` run: which external
operations succeed. -/
structure RpgEnv where
  /-- `page.goto(...)` (line 15) succeeds. -/
  navOk : Bool
  /-- `page.wait_for_selector("canvas")` (line 19) finds the canvas within
  the playwright default timeout. -/
  canvasAppears : Bool
  /-- the `1_menu.png` screenshot (line 21) succeeds. -/
  menuShotOk : Bool
  /-- `page.get_by_text("INITIATE STORY MODE").click()` (lines 27-28)
  succeeds; false when the start control is absent, not visible, or not
  actionable. -/
  startClickOk : Bool
  /-- the `2_dialogue_intro.png` screenshot (line 37) succeeds. -/
  dialogueShotOk : Bool
  /-- the `3_gameplay_hud.png` screenshot (line 50) succeeds. -/
  gameplayShotOk : Bool
  /-- the `error.png` screenshot in the `__main__` handler (line 62)
  succeeds. -/
  errorShotOk : Bool
deriving DecidableEq, Repr

/-- The five-iteration dialogue-advance loop of `verify_rpg_gameplay.py`
(lines 43-45): click the 1280x720 centre, then sleep 1.0 s, five times. -/
def rpgAdvanceClicks : List Ev :=
  (List.replicate 5 [Ev.click 640 360, Ev.sleep 1000]).flatten

/-- Shallow embedding of `verify_rpg_gameplay(page)`
(src/scripts/verify_rpg_gameplay.py lines 8-51).  Returns the event trace of
the call and whether it returned normally or raised.  The only `try` inside
the function wraps the start-button click (lines 26-31): a bare `except`
prints and `return`s.  Every other failing call raises out of the
function. -/
def verify_rpg_gameplay (e : RpgEnv) : List Ev × Outcome :=
  let pre := [Ev.registerHandler "console", Ev.registerHandler "pageerror",
              Ev.log "Navigating to game..."]
  if e.navOk = false then (pre ++ [Ev.navFail rpgUrl], Outcome.raised) else
  let t1 := pre ++ [Ev.nav rpgUrl, Ev.log "Waiting for Menu..."]
  if e.canvasAppears = false then
    (t1 ++ [Ev.waitTimeout "canvas" playwrightDefaultTimeoutMs], Outcome.raised)
  else
  let t2 := t1 ++ [Ev.waitSelector "canvas" playwrightDefaultTimeoutMs, Ev.sleep 5000]
  if e.menuShotOk = false then (t2 ++ [Ev.screenshotFail menuPath], Outcome.raised) else
  let t3 := t2 ++ [Ev.screenshot menuPath, Ev.log "Captured: 1_menu.png",
                   Ev.log "Clicking Start..."]
  if e.startClickOk = false then
    (t3 ++ [Ev.clickTextFail "INITIATE STORY MODE",
            Ev.log "Could not find start button"], Outcome.ok)
  else
  let t4 := t3 ++ [Ev.clickText "INITIATE STORY MODE",
                   Ev.log "Waiting for Intro Dialogue...", Ev.sleep 2000]
  if e.dialogueShotOk = false then
    (t4 ++ [Ev.screenshotFail dialoguePath], Outcome.raised)
  else
  let t5 := t4 ++ [Ev.screenshot dialoguePath, Ev.log "Captured: 2_dialogue_intro.png",
                   Ev.log "Advancing dialogue..."]
             ++ rpgAdvanceClicks
             ++ [Ev.log "Waiting for Gameplay...", Ev.sleep 3000]
  if e.gameplayShotOk = false then
    (t5 ++ [Ev.screenshotFail gameplayHudPath], Outcome.raised)
  else
  (t5 ++ [Ev.screenshot gameplayHudPath, Ev.log "Captured: 3_gameplay_hud.png"],
   Outcome.ok)

/-- Shallow embedding of running `verify_rpg_gameplay.py` as a process:
module import executes `os.makedirs("/home/jules/verification",
exist_ok=True)` (line 6), then the `__main__` block (lines 53-64) launches
the browser, opens a page, sets the viewport, and runs
`verify_rpg_gameplay` under `try/except Exception/finally`: the handler
prints the error and attempts an `error.png` screenshot; the `finally`
closes the browser.  Outcome `ok` means the process exits with success
status. -/
def rpgMain (e : RpgEnv) : List Ev × Outcome :=
  let pre := [Ev.mkdir verificationDir, Ev.launch, Ev.newPage, Ev.setViewport 1280 720]
  match verify_rpg_gameplay e with
  | (t, Outcome.ok) => (pre ++ t ++ [Ev.browserClose], Outcome.ok)
  | (t, Outcome.raised) =>
    if e.errorShotOk then
      (pre ++ t ++ [Ev.logError, Ev.screenshot errorPath, Ev.browserClose], Outcome.ok)
    else
      (pre ++ t ++ [Ev.logError, Ev.screenshotFail errorPath, Ev.browserClose],
       Outcome.raised)

/-! ## Embedding of `src/verify_mall.py` -/

/-- Environment of one `verify_mall.py` run: which external operations
succeed. -/
structure MallEnv where
  /-- `page.goto(...)` (line 7) succeeds. -/
  navOk : Bool
  /-- `page.wait_for_selector("canvas", timeout=30000)` (line 10) finds the
  canvas within 30000 ms. -/
  canvasAppears : Bool
  /-- `page.get_by_text("INITIATE STORY MODE").is_visible()` (lines 18-19)
  returns true. -/
  startVisible : Bool
  /-- `start_btn.click()` (line 20) succeeds. -/
  clickOk : Bool
  /-- the `mall_background_gameplay.png` screenshot (line 31) succeeds. -/
  gameplayShotOk : Bool
  /-- the `menu_failed.png` screenshot (line 35) succeeds. -/
  menuFailedShotOk : Bool
  /-- the `error.png` screenshot in the `except` handler (line 38)
  succeeds. -/
  errorShotOk : Bool
deriving DecidableEq, Repr

/-- The `except Exception` handler of `test_game_load` (lines 36-38): print
the error, then attempt an `error.png` screenshot.  If that screenshot
itself raises, the new exception propagates out of `test_game_load`. -/
def mallExcept (e : MallEnv) (t : List Ev) : List Ev × Outcome :=
  if e.errorShotOk then (t ++ [Ev.logError, Ev.screenshot errorPath], Outcome.ok)
  else (t ++ [Ev.logError, Ev.screenshotFail errorPath], Outcome.raised)

/-- The five-iteration intro-skip loop of `verify_mall.py` (lines 26-28):
click the centre, then sleep 0.5 s, five times. -/
def mallIntroClicks : List Ev :=
  (List.replicate 5 [Ev.click 640 360, Ev.sleep 500]).flatten

/-- Shallow embedding of `test_game_load(page)` (src/verify_mall.py lines
4-38).  Navigation and the canvas wait (lines 7-13) are *outside* the `try`
block, so their failures raise out of the function with no error artifact;
the `try` (lines 17-38) wraps only the start-button visibility check,
click, intro clicks, and the two branch screenshots. -/
def test_game_load (e : MallEnv) : List Ev × Outcome :=
  let pre := [Ev.log "Navigating to game..."]
  if e.navOk = false then (pre ++ [Ev.navFail mallUrl], Outcome.raised) else
  let t1 := pre ++ [Ev.nav mallUrl, Ev.log "Waiting for canvas..."]
  if e.canvasAppears = false then
    (t1 ++ [Ev.waitTimeout "canvas" mallCanvasTimeoutMs], Outcome.raised)
  else
  let t2 := t1 ++ [Ev.waitSelector "canvas" mallCanvasTimeoutMs,
                   Ev.log "Waiting for scene to stabilize (2s)...", Ev.sleep 2000,
                   Ev.log "Clicking Start..."]
  if e.startVisible then
    if e.clickOk = false then
      mallExcept e (t2 ++ [Ev.clickTextFail "INITIATE STORY MODE"])
    else
      let t3 := t2 ++ [Ev.clickText "INITIATE STORY MODE",
                       Ev.log "Clicked Start. Waiting for game...", Ev.sleep 3000,
                       Ev.log "Clicking through intro..."]
                 ++ mallIntroClicks ++ [Ev.sleep 2000]
      if e.gameplayShotOk then
        (t3 ++ [Ev.screenshot mallGameplayPath, Ev.log "Gameplay screenshot taken."],
         Outcome.ok)
      else
        mallExcept e (t3 ++ [Ev.screenshotFail mallGameplayPath])
  else
    let t3 := t2 ++ [Ev.log "Start button not visible."]
    if e.menuFailedShotOk then (t3 ++ [Ev.screenshot menuFailedPath], Outcome.ok)
    else mallExcept e (t3 ++ [Ev.screenshotFail menuFailedPath])

/-- Shallow embedding of running `verify_mall.py` as a process: the
`__main__` block (lines 40-47) launches the browser, opens a page with the
1280x720 viewport passed directly to `new_page` (modelled as the
`setViewport` event right after `newPage`), and runs `test_game_load`
under `try/finally` — there is **no** `except` clause, so an exception
escaping `test_game_load` propagates to the process after the `finally`
closes the browser.  Outcome `ok` means the process exits with success
status. -/
def mallMain (e : MallEnv) : List Ev × Outcome :=
  let pre := [Ev.launch, Ev.newPage, Ev.setViewport 1280 720]
  match test_game_load e with
  | (t, o) => (pre ++ t ++ [Ev.browserClose], o)

/-! ## Filesystem model for artifact writes

`page.screenshot(path=p)` creates the file at `p` or overwrites it in place
(playwright derives no versioned names).  Since the scripts assert nothing
about image contents, the filesystem is modelled as the list of distinct
paths that exist; a write inserts the path if absent and is a no-op on the
path set otherwise. -/

/-- Create-or-overwrite at path `p`: the path set gains `p` if absent. -/
def write (fs : List String) (p : String) : List String :=
  if p ∈ fs then fs else fs ++ [p]

/-- The path a single event writes, if any. -/
def shotPath : Ev → Option String
  | Ev.screenshot p => some p
  | _ => none

/-- Effect of one event on the path set. -/
def applyEv (fs : List String) (ev : Ev) : List String :=
  match shotPath ev with
  | some p => write fs p
  | none => fs

/-- Effect of a whole run (its event trace) on the path set. -/
def applyRun (fs : List String) (t : List Ev) : List String :=
  t.foldl applyEv fs

theorem mem_write_self (fs : List String) (p : String) : p ∈ write fs p := by
  by_cases h : p ∈ fs
  · simp [write, h]
  · simp [write, h]

theorem mem_write_of_mem {fs : List String} {q : String} (p : String) (h : q ∈ fs) :
    q ∈ write fs p := by
  by_cases hp : p ∈ fs
  · simpa [write, hp]
  · simp [write, hp]
    exact Or.inl h

theorem applyRun_cons (fs : List String) (ev : Ev) (t : List Ev) :
    applyRun fs (ev :: t) = applyRun (applyEv fs ev) t := rfl

theorem mem_applyRun_of_mem {q : String} (t : List Ev) (fs : List String)
    (h : q ∈ fs) : q ∈ applyRun fs t := by
  induction t generalizing fs with
  | nil => simpa [applyRun] using h
  | cons ev t ih =>
    rw [applyRun_cons]
    apply ih
    cases hsp : shotPath ev with
    | none => simpa [applyEv, hsp] using h
    | some p => simpa [applyEv, hsp] using mem_write_of_mem p h

theorem shotPath_eq_screenshot {ev : Ev} {p : String} (h : shotPath ev = some p) :
    ev = Ev.screenshot p := by
  cases ev <;> simp_all [shotPath]

theorem mem_applyRun_of_shot {p : String} (t : List Ev) (fs : List String)
    (h : Ev.screenshot p ∈ t) : p ∈ applyRun fs t := by
  induction t generalizing fs with
  | nil => cases h
  | cons ev t ih =>
    rw [applyRun_cons]
    rcases List.mem_cons.mp h with h1 | h2
    · apply mem_applyRun_of_mem
      simp [applyEv, ← h1, shotPath, mem_write_self]
    · exact ih _ h2

theorem applyRun_eq_self {fs : List String} {t : List Ev}
    (h : ∀ p, Ev.screenshot p ∈ t → p ∈ fs) : applyRun fs t = fs := by
  induction t with
  | nil => rfl
  | cons ev t ih =>
    rw [applyRun_cons]
    have hev : applyEv fs ev = fs := by
      cases hsp : shotPath ev with
      | none => simp [applyEv, hsp]
      | some p =>
        have hp : p ∈ fs := h p (by rw [← shotPath_eq_screenshot hsp]; exact List.mem_cons_self _ _)
        simp [applyEv, hsp, write, hp]
    rw [hev]
    exact ih fun p hp => h p (List.mem_cons_of_mem _ hp)

theorem applyRun_idem (fs : List String) (t : List Ev) :
    applyRun (applyRun fs t) t = applyRun fs t :=
  applyRun_eq_self fun _ hp => mem_applyRun_of_shot t fs hp

/-! ## Claim theorems -/

/-- Claim C1: in every run of either runnable driver script — whether all
checkpoints complete, the run halts degraded, or an exception escapes
checkpoint processing — the browser session opened at the start is closed
exactly once, as the final action before the run returns.  Both `__main__`
blocks close the browser in a `finally` clause. -/
theorem c1_session_closed_exactly_once :
    ∀ (e : RpgEnv) (m : MallEnv),
      (closeCount (rpgMain e).1 = 1 ∧ (rpgMain e).1.getLast? = some Ev.browserClose) ∧
      (closeCount (mallMain m).1 = 1 ∧ (mallMain m).1.getLast? = some Ev.browserClose) := by
  intro e m
  constructor
  · obtain ⟨a, b, c, d, f, g, h⟩ := e
    cases a <;> cases b <;> cases c <;> cases d <;> cases f <;> cases g <;> cases h <;> decide
  · obtain ⟨a, b, c, d, f, g, h⟩ := m
    cases a <;> cases b <;> cases c <;> cases d <;> cases f <;> cases g <;> cases h <;> decide

/-- Claim C7: a rerun of either script against the same stable target (same
environment, hence the same deterministic trace) with the same output
directory overwrites each artifact in place at the same fixed path, so the
path set — and its size — after two consecutive runs equals that after one
run: no accumulation and no versioned filenames. -/
theorem c7_rerun_idempotent :
    ∀ (e : RpgEnv) (m : MallEnv) (fs : List String),
      applyRun (applyRun fs (rpgMain e).1) (rpgMain e).1 = applyRun fs (rpgMain e).1 ∧
      (applyRun (applyRun fs (rpgMain e).1) (rpgMain e).1).length
        = (applyRun fs (rpgMain e).1).length ∧
      applyRun (applyRun fs (mallMain m).1) (mallMain m).1 = applyRun fs (mallMain m).1 := by
  intro e m fs
  exact ⟨applyRun_idem fs (rpgMain e).1,
         congrArg List.length (applyRun_idem fs (rpgMain e).1),
         applyRun_idem fs (mallMain m).1⟩

/-- Claim C8, amended: the artifact output directory is created (with
`exist_ok=True`) before any checkpoint writes only in
`verify_rpg_gameplay.py`, whose module-level `os.makedirs` runs at import,
making the `mkdir` the very first event of every run; `verify_mall.py`
performs no directory creation at all in any run. -/
theorem c8_outdir_created_only_by_rpg :
    ∀ (e : RpgEnv) (m : MallEnv),
      (rpgMain e).1.head? = some (Ev.mkdir verificationDir) ∧
      mkdirCount (rpgMain e).1 = 1 ∧
      mkdirCount (mallMain m).1 = 0 := by
  intro e m
  refine ⟨?_, ?_, ?_⟩
  · obtain ⟨a, b, c, d, f, g, h⟩ := e
    cases a <;> cases b <;> cases c <;> cases d <;> cases f <;> cases g <;> cases h <;> decide
  · obtain ⟨a, b, c, d, f, g, h⟩ := e
    cases a <;> cases b <;> cases c <;> cases d <;> cases f <;> cases g <;> cases h <;> decide
  · obtain ⟨a, b, c, d, f, g, h⟩ := m
    cases a <;> cases b <;> cases c <;> cases d <;> cases f <;> cases g <;> cases h <;> decide

/-- Claim C8, counterexample: a fully successful `verify_mall.py` run writes
its gameplay image artifact into the output directory without ever creating
that directory — no `mkdir` event occurs in the whole run — so the claim
that every run creates the output directory (if missing) before any
checkpoint write is false of this script. -/
theorem c8_mall_never_creates_outdir_cex :
    mkdirCount (mallMain ⟨true, true, true, true, true, true, true⟩).1 = 0 ∧
    artifacts (mallMain ⟨true, true, true, true, true, true, true⟩).1 = [mallGameplayPath] := by
  decide

/-- Claim C2: when the start-control text ("INITIATE STORY MODE") is absent
or not visible, the run halts at that checkpoint and writes no artifact for
any checkpoint declared after it.  In `verify_rpg_gameplay.py` the bare
`except` around the click returns from the function (outcome `ok`, no
dialogue, gameplay, or error artifact); in `verify_mall.py` the
not-visible branch never clicks start and never reaches the gameplay
screenshot. -/
theorem c2_start_missing_no_later_artifacts :
    (∀ e : RpgEnv, e.navOk = true → e.canvasAppears = true → e.menuShotOk = true →
      e.startClickOk = false →
      (verify_rpg_gameplay e).2 = Outcome.ok ∧
      dialoguePath ∉ artifacts (rpgMain e).1 ∧
      gameplayHudPath ∉ artifacts (rpgMain e).1 ∧
      errorPath ∉ artifacts (rpgMain e).1) ∧
    (∀ m : MallEnv, m.navOk = true → m.canvasAppears = true → m.startVisible = false →
      mallGameplayPath ∉ artifacts (mallMain m).1 ∧
      Ev.clickText "INITIATE STORY MODE" ∉ (mallMain m).1) := by
  constructor
  · intro e
    obtain ⟨a, b, c, d, f, g, h⟩ := e
    revert a b c d f g h
    decide
  · intro m
    obtain ⟨a, b, c, d, f, g, h⟩ := m
    revert a b c d f g h
    decide

/-- Witness for C2: both halting runs at concrete environments. -/
theorem c2_start_missing_no_later_artifacts_witness :
    ((verify_rpg_gameplay ⟨true, true, true, false, true, true, true⟩).2 = Outcome.ok ∧
     dialoguePath ∉ artifacts (rpgMain ⟨true, true, true, false, true, true, true⟩).1 ∧
     gameplayHudPath ∉ artifacts (rpgMain ⟨true, true, true, false, true, true, true⟩).1 ∧
     errorPath ∉ artifacts (rpgMain ⟨true, true, true, false, true, true, true⟩).1) ∧
    (mallGameplayPath ∉ artifacts (mallMain ⟨true, true, false, true, true, true, true⟩).1 ∧
     Ev.clickText "INITIATE STORY MODE" ∉ (mallMain ⟨true, true, false, true, true, true, true⟩).1) :=
  ⟨c2_start_missing_no_later_artifacts.1 ⟨true, true, true, false, true, true, true⟩
     rfl rfl rfl rfl,
   c2_start_missing_no_later_artifacts.2 ⟨true, true, false, true, true, true, true⟩
     rfl rfl rfl⟩

/-- Counterexample to C3: in `verify_rpg_gameplay.py`, a run whose
start-control click fails (environment `startClickOk = false`, all other
operations succeeding) halts with the earlier menu capture as its only
screenshot attempt of the whole run — no diagnostic screenshot is captured
for the degraded checkpoint before the sequence halts. -/
theorem c3_rpg_no_diagnostic_cex :
    Ev.clickTextFail "INITIATE STORY MODE"
      ∈ (rpgMain ⟨true, true, true, false, true, true, true⟩).1 ∧
    artifacts (rpgMain ⟨true, true, true, false, true, true, true⟩).1 = [menuPath] ∧
    screenshotAttemptCount (rpgMain ⟨true, true, true, false, true, true, true⟩).1 = 1 := by
  decide

/-- Claim C3, amended: only `verify_mall.py` captures a diagnostic
screenshot (`menu_failed.png`) for the degraded start checkpoint before
halting; `verify_rpg_gameplay.py` merely logs and returns, capturing no
diagnostic screenshot for that checkpoint (its menu capture is the sole
screenshot attempt of such a run). -/
theorem c3_degraded_diagnostic_mall_only :
    (∀ m : MallEnv, m.navOk = true → m.canvasAppears = true → m.startVisible = false →
      m.menuFailedShotOk = true →
      menuFailedPath ∈ artifacts (mallMain m).1 ∧
      (mallMain m).2 = Outcome.ok ∧
      mallGameplayPath ∉ artifacts (mallMain m).1) ∧
    (∀ e : RpgEnv, e.navOk = true → e.canvasAppears = true → e.menuShotOk = true →
      e.startClickOk = false →
      artifacts (rpgMain e).1 = [menuPath] ∧
      screenshotAttemptCount (rpgMain e).1 = 1) := by
  constructor
  · intro m
    obtain ⟨a, b, c, d, f, g, h⟩ := m
    revert a b c d f g h
    decide
  · intro e
    obtain ⟨a, b, c, d, f, g, h⟩ := e
    revert a b c d f g h
    decide

/-- Witness for amended C3 at concrete environments. -/
theorem c3_degraded_diagnostic_mall_only_witness :
    (menuFailedPath ∈ artifacts (mallMain ⟨true, true, false, true, true, true, true⟩).1 ∧
     (mallMain ⟨true, true, false, true, true, true, true⟩).2 = Outcome.ok ∧
     mallGameplayPath ∉ artifacts (mallMain ⟨true, true, false, true, true, true, true⟩).1) ∧
    (artifacts (rpgMain ⟨true, true, true, false, true, true, true⟩).1 = [menuPath] ∧
     screenshotAttemptCount (rpgMain ⟨true, true, true, false, true, true, true⟩).1 = 1) :=
  ⟨c3_degraded_diagnostic_mall_only.1 ⟨true, true, false, true, true, true, true⟩
     rfl rfl rfl rfl,
   c3_degraded_diagnostic_mall_only.2 ⟨true, true, true, false, true, true, true⟩
     rfl rfl rfl rfl⟩

/-- Counterexample to C4: a `verify_mall.py` run whose navigation fails
(everything else would succeed) aborts with **zero** screenshot attempts —
`page.goto` stands outside the function's `try` block and the `__main__`
block has no `except` — so no best-effort error artifact is attempted
before teardown, refuting the claim for this driver. -/
theorem c4_mall_nav_no_error_artifact_cex :
    (mallMain ⟨false, true, true, true, true, true, true⟩).2 = Outcome.raised ∧
    screenshotAttemptCount (mallMain ⟨false, true, true, true, true, true, true⟩).1 = 0 ∧
    artifacts (mallMain ⟨false, true, true, true, true, true, true⟩).1 = [] := by
  decide

/-- Claim C4, amended: when navigation or the canvas wait fails, both
scripts abort the remaining checkpoint sequence and tear the session down
(close is the last event); `verify_rpg_gameplay.py` additionally attempts
exactly one best-effort screenshot to the `error.png` artifact from its
`__main__` handler, while `verify_mall.py` attempts no screenshot at all. -/
theorem c4_nav_failure_error_artifact :
    (∀ e : RpgEnv, e.navOk = false ∨ e.canvasAppears = false →
      ckArtifacts rpgCheckpointPaths (rpgMain e).1 = [] ∧
      Ev.logError ∈ (rpgMain e).1 ∧
      (Ev.screenshot errorPath ∈ (rpgMain e).1 ∨
        Ev.screenshotFail errorPath ∈ (rpgMain e).1) ∧
      screenshotAttemptCount (rpgMain e).1 = 1 ∧
      (rpgMain e).1.getLast? = some Ev.browserClose) ∧
    (∀ m : MallEnv, m.navOk = false ∨ m.canvasAppears = false →
      (mallMain m).2 = Outcome.raised ∧
      screenshotAttemptCount (mallMain m).1 = 0 ∧
      (mallMain m).1.getLast? = some Ev.browserClose) := by
  constructor
  · intro e
    obtain ⟨a, b, c, d, f, g, h⟩ := e
    revert a b c d f g h
    decide
  · intro m
    obtain ⟨a, b, c, d, f, g, h⟩ := m
    revert a b c d f g h
    decide

/-- Witness for amended C4: navigation fails in both scripts. -/
theorem c4_nav_failure_error_artifact_witness :
    (ckArtifacts rpgCheckpointPaths (rpgMain ⟨false, true, true, true, true, true, true⟩).1 = [] ∧
     Ev.logError ∈ (rpgMain ⟨false, true, true, true, true, true, true⟩).1 ∧
     (Ev.screenshot errorPath ∈ (rpgMain ⟨false, true, true, true, true, true, true⟩).1 ∨
       Ev.screenshotFail errorPath ∈ (rpgMain ⟨false, true, true, true, true, true, true⟩).1) ∧
     screenshotAttemptCount (rpgMain ⟨false, true, true, true, true, true, true⟩).1 = 1 ∧
     (rpgMain ⟨false, true, true, true, true, true, true⟩).1.getLast?
       = some Ev.browserClose) ∧
    ((mallMain ⟨false, true, true, true, true, true, true⟩).2 = Outcome.raised ∧
     screenshotAttemptCount (mallMain ⟨false, true, true, true, true, true, true⟩).1 = 0 ∧
     (mallMain ⟨false, true, true, true, true, true, true⟩).1.getLast?
       = some Ev.browserClose) :=
  ⟨c4_nav_failure_error_artifact.1 ⟨false, true, true, true, true, true, true⟩ (Or.inl rfl),
   c4_nav_failure_error_artifact.2 ⟨false, true, true, true, true, true, true⟩ (Or.inl rfl)⟩

/-- Claim C5: against a valid (reachable, canvas-bearing) target page, each
run writes at most one artifact per checkpoint with a filename fixed by the
checkpoint alone — the checkpoint artifacts always form a sublist of the
constant, ordered path list — so the count of checkpoint artifacts never
exceeds the number of checkpoints; and a fully successful run writes
exactly one artifact per checkpoint. -/
theorem c5_artifacts_per_checkpoint :
    (∀ e : RpgEnv, e.navOk = true → e.canvasAppears = true →
      List.Sublist (ckArtifacts rpgCheckpointPaths (rpgMain e).1) rpgCheckpointPaths ∧
      (ckArtifacts rpgCheckpointPaths (rpgMain e).1).length ≤ rpgCheckpointPaths.length ∧
      (e.menuShotOk = true → e.startClickOk = true → e.dialogueShotOk = true →
        e.gameplayShotOk = true →
        ckArtifacts rpgCheckpointPaths (rpgMain e).1 = rpgCheckpointPaths)) ∧
    (∀ m : MallEnv, m.navOk = true → m.canvasAppears = true →
      List.Sublist (ckArtifacts mallCheckpointPaths (mallMain m).1) mallCheckpointPaths ∧
      (ckArtifacts mallCheckpointPaths (mallMain m).1).length ≤ mallCheckpointPaths.length ∧
      (m.startVisible = true → m.clickOk = true → m.gameplayShotOk = true →
        ckArtifacts mallCheckpointPaths (mallMain m).1 = [mallGameplayPath])) := by
  constructor
  · intro e
    obtain ⟨a, b, c, d, f, g, h⟩ := e
    revert a b c d f g h
    decide
  · intro m
    obtain ⟨a, b, c, d, f, g, h⟩ := m
    revert a b c d f g h
    decide

/-- Witness for C5: fully successful runs of both scripts. -/
theorem c5_artifacts_per_checkpoint_witness :
    ckArtifacts rpgCheckpointPaths (rpgMain ⟨true, true, true, true, true, true, true⟩).1
      = rpgCheckpointPaths ∧
    ckArtifacts mallCheckpointPaths (mallMain ⟨true, true, true, true, true, true, true⟩).1
      = [mallGameplayPath] :=
  ⟨(c5_artifacts_per_checkpoint.1 ⟨true, true, true, true, true, true, true⟩
      rfl rfl).2.2 rfl rfl rfl rfl,
   (c5_artifacts_per_checkpoint.2 ⟨true, true, true, true, true, true, true⟩
      rfl rfl).2.2 rfl rfl rfl⟩

/-- Claim C6: when the canvas selector never appears, each script's canvas
wait is a single bounded `wait_for_selector` whose timeout parameter lies
within the configured 20-30 s range (30000 ms explicit in
`verify_mall.py`, the playwright default 30000 ms in
`verify_rpg_gameplay.py`), and once it raises the run fails — no
checkpoint artifact is produced and the session is torn down — rather than
waiting on the canvas indefinitely. -/
theorem c6_canvas_timeout_bound :
    (∀ e : RpgEnv, e.navOk = true → e.canvasAppears = false →
      Ev.waitTimeout "canvas" playwrightDefaultTimeoutMs ∈ (rpgMain e).1 ∧
      (verify_rpg_gameplay e).2 = Outcome.raised ∧
      ckArtifacts rpgCheckpointPaths (rpgMain e).1 = [] ∧
      (rpgMain e).1.getLast? = some Ev.browserClose) ∧
    (∀ m : MallEnv, m.navOk = true → m.canvasAppears = false →
      Ev.waitTimeout "canvas" mallCanvasTimeoutMs ∈ (mallMain m).1 ∧
      (mallMain m).2 = Outcome.raised ∧
      artifacts (mallMain m).1 = [] ∧
      (mallMain m).1.getLast? = some Ev.browserClose) ∧
    (20000 ≤ playwrightDefaultTimeoutMs ∧ playwrightDefaultTimeoutMs ≤ 30000 ∧
     20000 ≤ mallCanvasTimeoutMs ∧ mallCanvasTimeoutMs ≤ 30000) := by
  refine ⟨?_, ?_, by decide⟩
  · intro e
    obtain ⟨a, b, c, d, f, g, h⟩ := e
    revert a b c d f g h
    decide
  · intro m
    obtain ⟨a, b, c, d, f, g, h⟩ := m
    revert a b c d f g h
    decide

/-- Witness for C6: the canvas never appears in either script's run. -/
theorem c6_canvas_timeout_bound_witness :
    (Ev.waitTimeout "canvas" playwrightDefaultTimeoutMs
       ∈ (rpgMain ⟨true, false, true, true, true, true, true⟩).1 ∧
     (verify_rpg_gameplay ⟨true, false, true, true, true, true, true⟩).2 = Outcome.raised ∧
     ckArtifacts rpgCheckpointPaths
       (rpgMain ⟨true, false, true, true, true, true, true⟩).1 = [] ∧
     (rpgMain ⟨true, false, true, true, true, true, true⟩).1.getLast?
       = some Ev.browserClose) ∧
    (Ev.waitTimeout "canvas" mallCanvasTimeoutMs
       ∈ (mallMain ⟨true, false, true, true, true, true, true⟩).1 ∧
     (mallMain ⟨true, false, true, true, true, true, true⟩).2 = Outcome.raised ∧
     artifacts (mallMain ⟨true, false, true, true, true, true, true⟩).1 = [] ∧
     (mallMain ⟨true, false, true, true, true, true, true⟩).1.getLast?
       = some Ev.browserClose) :=
  ⟨c6_canvas_timeout_bound.1 ⟨true, false, true, true, true, true, true⟩ rfl rfl,
   c6_canvas_timeout_bound.2.1 ⟨true, false, true, true, true, true, true⟩ rfl rfl⟩

/-- Counterexample to C9: a `verify_rpg_gameplay.py` run whose menu
screenshot fails (every later operation would succeed) raises out of the
function: the start control is never clicked, no later checkpoint artifact
is written, and the only artifact of the run is the top-level handler's
`error.png` — so a capture failure does abort the remaining checkpoints,
refuting the claim. -/
theorem c9_capture_failure_aborts_cex :
    (verify_rpg_gameplay ⟨true, true, false, true, true, true, true⟩).2 = Outcome.raised ∧
    Ev.clickText "INITIATE STORY MODE"
      ∉ (rpgMain ⟨true, true, false, true, true, true, true⟩).1 ∧
    artifacts (rpgMain ⟨true, true, false, true, true, true, true⟩).1 = [errorPath] := by
  decide

/-- Claim C9, amended: in `verify_rpg_gameplay.py` a checkpoint screenshot
failure is not merely logged — it raises out of the function, aborting all
remaining checkpoints; the `__main__` handler then logs it and attempts a
best-effort `error.png` screenshot before the session is torn down.  The
script has exactly three checkpoint screenshots (menu, dialogue intro,
gameplay); one conjunct per failing capture, each under the hypotheses
needed to reach that capture, asserting in every case: the function
raises, artifacts stop at the checkpoints already completed, the handler
logs and attempts `error.png`, and the session close is the last event. -/
theorem c9_capture_failure_aborts_run :
    (∀ e : RpgEnv, e.navOk = true → e.canvasAppears = true → e.menuShotOk = false →
      (verify_rpg_gameplay e).2 = Outcome.raised ∧
      ckArtifacts rpgCheckpointPaths (rpgMain e).1 = [] ∧
      Ev.clickText "INITIATE STORY MODE" ∉ (rpgMain e).1 ∧
      Ev.logError ∈ (rpgMain e).1 ∧
      (Ev.screenshot errorPath ∈ (rpgMain e).1 ∨
        Ev.screenshotFail errorPath ∈ (rpgMain e).1) ∧
      (rpgMain e).1.getLast? = some Ev.browserClose) ∧
    (∀ e : RpgEnv, e.navOk = true → e.canvasAppears = true → e.menuShotOk = true →
      e.startClickOk = true → e.dialogueShotOk = false →
      (verify_rpg_gameplay e).2 = Outcome.raised ∧
      ckArtifacts rpgCheckpointPaths (rpgMain e).1 = [menuPath] ∧
      gameplayHudPath ∉ artifacts (rpgMain e).1 ∧
      Ev.logError ∈ (rpgMain e).1 ∧
      (Ev.screenshot errorPath ∈ (rpgMain e).1 ∨
        Ev.screenshotFail errorPath ∈ (rpgMain e).1) ∧
      (rpgMain e).1.getLast? = some Ev.browserClose) ∧
    (∀ e : RpgEnv, e.navOk = true → e.canvasAppears = true → e.menuShotOk = true →
      e.startClickOk = true → e.dialogueShotOk = true → e.gameplayShotOk = false →
      (verify_rpg_gameplay e).2 = Outcome.raised ∧
      ckArtifacts rpgCheckpointPaths (rpgMain e).1 = [menuPath, dialoguePath] ∧
      Ev.logError ∈ (rpgMain e).1 ∧
      (Ev.screenshot errorPath ∈ (rpgMain e).1 ∨
        Ev.screenshotFail errorPath ∈ (rpgMain e).1) ∧
      (rpgMain e).1.getLast? = some Ev.browserClose) := by
  refine ⟨?_, ?_, ?_⟩ <;>
    · intro e
      obtain ⟨a, b, c, d, f, g, h⟩ := e
      revert a b c d f g h
      decide

/-- Witness for amended C9: one concrete run per failing checkpoint
capture — menu, dialogue intro, and gameplay. -/
theorem c9_capture_failure_aborts_run_witness :
    ((verify_rpg_gameplay ⟨true, true, false, true, true, true, false⟩).2 = Outcome.raised ∧
     ckArtifacts rpgCheckpointPaths
       (rpgMain ⟨true, true, false, true, true, true, false⟩).1 = [] ∧
     Ev.clickText "INITIATE STORY MODE"
       ∉ (rpgMain ⟨true, true, false, true, true, true, false⟩).1 ∧
     Ev.logError ∈ (rpgMain ⟨true, true, false, true, true, true, false⟩).1 ∧
     (Ev.screenshot errorPath ∈ (rpgMain ⟨true, true, false, true, true, true, false⟩).1 ∨
       Ev.screenshotFail errorPath
         ∈ (rpgMain ⟨true, true, false, true, true, true, false⟩).1) ∧
     (rpgMain ⟨true, true, false, true, true, true, false⟩).1.getLast?
       = some Ev.browserClose) ∧
    ((verify_rpg_gameplay ⟨true, true, true, true, false, true, true⟩).2 = Outcome.raised ∧
     ckArtifacts rpgCheckpointPaths
       (rpgMain ⟨true, true, true, true, false, true, true⟩).1 = [menuPath] ∧
     gameplayHudPath ∉ artifacts (rpgMain ⟨true, true, true, true, false, true, true⟩).1 ∧
     Ev.logError ∈ (rpgMain ⟨true, true, true, true, false, true, true⟩).1 ∧
     (Ev.screenshot errorPath ∈ (rpgMain ⟨true, true, true, true, false, true, true⟩).1 ∨
       Ev.screenshotFail errorPath
         ∈ (rpgMain ⟨true, true, true, true, false, true, true⟩).1) ∧
     (rpgMain ⟨true, true, true, true, false, true, true⟩).1.getLast?
       = some Ev.browserClose) ∧
    ((verify_rpg_gameplay ⟨true, true, true, true, true, false, true⟩).2 = Outcome.raised ∧
     ckArtifacts rpgCheckpointPaths
       (rpgMain ⟨true, true, true, true, true, false, true⟩).1 = [menuPath, dialoguePath] ∧
     Ev.logError ∈ (rpgMain ⟨true, true, true, true, true, false, true⟩).1 ∧
     (Ev.screenshot errorPath ∈ (rpgMain ⟨true, true, true, true, true, false, true⟩).1 ∨
       Ev.screenshotFail errorPath
         ∈ (rpgMain ⟨true, true, true, true, true, false, true⟩).1) ∧
     (rpgMain ⟨true, true, true, true, true, false, true⟩).1.getLast?
       = some Ev.browserClose) :=
  ⟨c9_capture_failure_aborts_run.1 ⟨true, true, false, true, true, true, false⟩ rfl rfl rfl,
   c9_capture_failure_aborts_run.2.1 ⟨true, true, true, true, false, true, true⟩
     rfl rfl rfl rfl rfl,
   c9_capture_failure_aborts_run.2.2 ⟨true, true, true, true, true, false, true⟩
     rfl rfl rfl rfl rfl rfl⟩

/-- Claim C10: when the start-control click of `verify_rpg_gameplay.py`
fails, the bare `except` returns normally: the top-level handler never
fires (no error log, no `error.png`), no degraded-checkpoint screenshot is
attempted, the menu artifact is the run's only artifact, and the process
exits with success status. -/
theorem c10_click_failure_silent_success :
    ∀ e : RpgEnv, e.navOk = true → e.canvasAppears = true → e.menuShotOk = true →
      e.startClickOk = false →
      (rpgMain e).2 = Outcome.ok ∧
      Ev.logError ∉ (rpgMain e).1 ∧
      errorPath ∉ artifacts (rpgMain e).1 ∧
      artifacts (rpgMain e).1 = [menuPath] ∧
      screenshotAttemptCount (rpgMain e).1 = 1 := by
  intro e
  obtain ⟨a, b, c, d, f, g, h⟩ := e
  revert a b c d f g h
  decide

/-- Witness for C10 at a concrete environment. -/
theorem c10_click_failure_silent_success_witness :
    (rpgMain ⟨true, true, true, false, false, false, false⟩).2 = Outcome.ok ∧
    Ev.logError ∉ (rpgMain ⟨true, true, true, false, false, false, false⟩).1 ∧
    errorPath ∉ artifacts (rpgMain ⟨true, true, true, false, false, false, false⟩).1 ∧
    artifacts (rpgMain ⟨true, true, true, false, false, false, false⟩).1 = [menuPath] ∧
    screenshotAttemptCount (rpgMain ⟨true, true, true, false, false, false, false⟩).1 = 1 :=
  c10_click_failure_silent_success ⟨true, true, true, false, false, false, false⟩
    rfl rfl rfl rfl
